import Mathlib

/-!
Verification of the resume-parser pipeline (`app/main.py`,
`app/services/llm_service.py`, `app/services/parser.py`) against its
natural-language specification.

The Python code is shallowly embedded: JSON values are an inductive type,
Python dicts are association lists (first-key-wins lookup, matching the
unique-key discipline of `json.loads` / dict literals), exceptions are
`Except`, and the external collaborators (the Groq LLM call, Pydantic
validation via `PydanticOutputParser`, the stdlib `json.loads`, the file
system) are explicit parameters gathered in an `Env` structure, so that
every in-repository control-flow decision is a Lean definition translated
from the source.
-/

namespace ResumeApp

/-- A JSON value, as produced by `json.loads` or `model_dump()`. Numbers are
modelled as integers (no claim depends on the numeric type). Objects are
association lists in insertion order, as Python dicts are. -/
inductive Json where
  | null : Json
  | bool (b : Bool) : Json
  | num (n : Int) : Json
  | str (s : String) : Json
  | arr (elems : List Json) : Json
  | obj (fields : List (String × Json)) : Json

/-- The metadata store content: the single top-level JSON object of
`data.json`, mapping document ids to records. -/
abbrev Store := List (String × Json)

/-- Python `d.get(k)` on a dict modelled as an association list:
first binding wins (dicts have unique keys, so this is exact). -/
def lookupJ : List (String × Json) → String → Option Json
  | [], _ => none
  | (k₁, v) :: rest, k => if k₁ = k then some v else lookupJ rest k

/-- Python `d[k] = v` on a dict: replace the binding if the key is present
(keeping its position, as dict assignment does), otherwise append the new
binding at the end (dict insertion order). -/
def setKey : List (String × Json) → String → Json → List (String × Json)
  | [], k, v => [(k, v)]
  | (k₁, v₁) :: rest, k, v =>
    if k₁ = k then (k, v) :: rest else (k₁, v₁) :: setKey rest k v

/-- `parser.py` line 150: the keys treated as list-typed by the
normalisation loop, `{"experience", "education", "skills", "certifications"}`. -/
def listFieldKeys : List String := ["experience", "education", "skills", "certifications"]

/-- `parser.py` line 152: `[] if key in {...} else None`. -/
def defaultFor (k : String) : Json :=
  if k ∈ listFieldKeys then Json.arr [] else Json.null

/-- One iteration of the loop `if key not in parsed: parsed[key] = ...`
(`parser.py` lines 150-152): adds the default binding only when the key is
absent; a present key is left untouched even when its value is null. -/
def setIfAbsent (m : List (String × Json)) (k : String) : List (String × Json) :=
  match lookupJ m k with
  | some _ => m
  | none => m ++ [(k, defaultFor k)]

/-- `parser.py` line 149: the expected top-level keys. The Python source
iterates a set literal in unspecified order; since `setIfAbsent` for
distinct keys commutes with respect to lookups, a fixed order is a faithful
embedding. -/
def expectedKeys : List String :=
  ["contact", "summary", "experience", "education", "skills", "certifications"]

/-- The whole normalisation loop of `process_file` (`parser.py` 149-152). -/
def normalizeParsed (m : List (String × Json)) : List (String × Json) :=
  expectedKeys.foldl setIfAbsent m

/-- Python `d.get(k)`: `None` when the key is absent. -/
def getPy (m : List (String × Json)) (k : String) : Json :=
  (lookupJ m k).getD Json.null

/-- Python `d.get(k, dflt)`. -/
def getPyD (m : List (String × Json)) (k : String) (dflt : Json) : Json :=
  (lookupJ m k).getD dflt

/-- The `result` dict literal built by `process_file` (`parser.py` 154-164)
from the freshly generated `document_id` (`str(uuid4())`, modelled as the
parameter `document_id`), the (already normalised here) dict returned by
`extract_structured_json`, and the extracted text. `raw_text` is
`text[:5000]`, a code-point prefix, modelled by `List.take` on the
character list. -/
def buildRecord (document_id : String) (parsed₀ : List (String × Json))
    (text : List Char) : List (String × Json) :=
  let parsed := normalizeParsed parsed₀
  [("document_id", Json.str document_id),
   ("contact", getPy parsed "contact"),
   ("summary", getPy parsed "summary"),
   ("experience", getPyD parsed "experience" (Json.arr [])),
   ("education", getPyD parsed "education" (Json.arr [])),
   ("skills", getPyD parsed "skills" (Json.arr [])),
   ("certifications", getPyD parsed "certifications" (Json.arr [])),
   ("raw_text", Json.str (String.mk (text.take 5000)))]

/-- `save_metadata` (`parser.py` 81-100): read the whole backing object —
`none` models a `json.JSONDecodeError`, treated as an empty store — then
`meta[document_id] = data` and write back. The returned value is the new
file content. -/
def save_metadata (readResult : Option Store) (document_id : String) (data : Json) : Store :=
  setKey (readResult.getD []) document_id data

/-- `load_metadata` (`parser.py` 103-119): read the backing object and
return `meta.get(document_id)`; any exception during the read (modelled by
`readResult = none`) is caught and `None` is returned. -/
def load_metadata (readResult : Option Store) (document_id : String) : Option Json :=
  match readResult with
  | some meta => lookupJ meta document_id
  | none => none

section Lemmas

theorem lookupJ_setKey_self (m : List (String × Json)) (k : String) (v : Json) :
    lookupJ (setKey m k v) k = some v := by
  induction m with
  | nil => simp [setKey, lookupJ]
  | cons p rest ih =>
    obtain ⟨k₁, v₁⟩ := p
    by_cases h : k₁ = k
    · simp [setKey, h, lookupJ]
    · simp [setKey, h, lookupJ, ih]

theorem lookupJ_setKey_ne (m : List (String × Json)) (k : String) (v : Json)
    (k' : String) (h : k' ≠ k) : lookupJ (setKey m k v) k' = lookupJ m k' := by
  induction m with
  | nil => simp [setKey, lookupJ, if_neg (Ne.symm h)]
  | cons p rest ih =>
    obtain ⟨k₁, v₁⟩ := p
    by_cases hk : k₁ = k
    · subst hk
      simp only [setKey, if_pos rfl, lookupJ]
      rw [if_neg (fun h₁ => h h₁.symm), if_neg (fun h₁ => h h₁.symm)]
    · simp only [setKey, if_neg hk, lookupJ]
      by_cases hk' : k₁ = k'
      · rw [if_pos hk', if_pos hk']
      · rw [if_neg hk', if_neg hk', ih]

theorem lookupJ_append (m₁ m₂ : List (String × Json)) (k : String) :
    lookupJ (m₁ ++ m₂) k =
      match lookupJ m₁ k with
      | some v => some v
      | none => lookupJ m₂ k := by
  induction m₁ with
  | nil => simp [lookupJ]
  | cons p rest ih =>
    obtain ⟨k₁, v₁⟩ := p
    by_cases h : k₁ = k
    · simp [lookupJ, h]
    · simp only [List.cons_append, lookupJ, if_neg h]
      exact ih

theorem lookupJ_setIfAbsent_self (m : List (String × Json)) (k : String) :
    lookupJ (setIfAbsent m k) k = some ((lookupJ m k).getD (defaultFor k)) := by
  unfold setIfAbsent
  cases h : lookupJ m k with
  | some v => simp [h]
  | none =>
    rw [lookupJ_append, h]
    simp [lookupJ]

theorem lookupJ_setIfAbsent_ne (m : List (String × Json)) (k k' : String)
    (h : k' ≠ k) : lookupJ (setIfAbsent m k) k' = lookupJ m k' := by
  unfold setIfAbsent
  cases hm : lookupJ m k with
  | some v => rfl
  | none =>
    rw [lookupJ_append]
    cases hm' : lookupJ m k' with
    | some v => rfl
    | none => simp [lookupJ, if_neg (Ne.symm h)]

theorem lookupJ_normalize (m : List (String × Json)) (k : String)
    (hk : k ∈ expectedKeys) :
    lookupJ (normalizeParsed m) k = some ((lookupJ m k).getD (defaultFor k)) := by
  fin_cases hk <;>
    simp [normalizeParsed, expectedKeys, lookupJ_setIfAbsent_self, lookupJ_setIfAbsent_ne]

theorem lookupJ_buildRecord_id (d : String) (p : List (String × Json)) (t : List Char) :
    lookupJ (buildRecord d p t) "document_id" = some (Json.str d) := by
  simp [buildRecord, lookupJ]

theorem lookupJ_buildRecord_contact (d : String) (p : List (String × Json)) (t : List Char) :
    lookupJ (buildRecord d p t) "contact" = some ((lookupJ p "contact").getD Json.null) := by
  have h := lookupJ_normalize p "contact" (by simp [expectedKeys])
  simp [buildRecord, lookupJ, getPy, h, defaultFor, listFieldKeys]

theorem lookupJ_buildRecord_summary (d : String) (p : List (String × Json)) (t : List Char) :
    lookupJ (buildRecord d p t) "summary" = some ((lookupJ p "summary").getD Json.null) := by
  have h := lookupJ_normalize p "summary" (by simp [expectedKeys])
  simp [buildRecord, lookupJ, getPy, h, defaultFor, listFieldKeys]

theorem lookupJ_buildRecord_experience (d : String) (p : List (String × Json)) (t : List Char) :
    lookupJ (buildRecord d p t) "experience" = some ((lookupJ p "experience").getD (Json.arr [])) := by
  have h := lookupJ_normalize p "experience" (by simp [expectedKeys])
  simp [buildRecord, lookupJ, getPyD, h, defaultFor, listFieldKeys]

theorem lookupJ_buildRecord_education (d : String) (p : List (String × Json)) (t : List Char) :
    lookupJ (buildRecord d p t) "education" = some ((lookupJ p "education").getD (Json.arr [])) := by
  have h := lookupJ_normalize p "education" (by simp [expectedKeys])
  simp [buildRecord, lookupJ, getPyD, h, defaultFor, listFieldKeys]

theorem lookupJ_buildRecord_skills (d : String) (p : List (String × Json)) (t : List Char) :
    lookupJ (buildRecord d p t) "skills" = some ((lookupJ p "skills").getD (Json.arr [])) := by
  have h := lookupJ_normalize p "skills" (by simp [expectedKeys])
  simp [buildRecord, lookupJ, getPyD, h, defaultFor, listFieldKeys]

theorem lookupJ_buildRecord_certifications (d : String) (p : List (String × Json)) (t : List Char) :
    lookupJ (buildRecord d p t) "certifications" =
      some ((lookupJ p "certifications").getD (Json.arr [])) := by
  have h := lookupJ_normalize p "certifications" (by simp [expectedKeys])
  simp [buildRecord, lookupJ, getPyD, h, defaultFor, listFieldKeys]

theorem lookupJ_buildRecord_rawText (d : String) (p : List (String × Json)) (t : List Char) :
    lookupJ (buildRecord d p t) "raw_text" = some (Json.str (String.mk (t.take 5000))) := by
  simp [buildRecord, lookupJ]

theorem lookupJ_buildRecord_sentinelAbsent (d : String) (p : List (String × Json)) (t : List Char) :
    lookupJ (buildRecord d p t) "_raw" = none := by
  simp [buildRecord, lookupJ]

end Lemmas

/-! ### The JSON-coercion cascade of `extract_structured_json`
(`llm_service.py` 46-78)

The two external parse routines are explicit parameters:
`pyd` models `PydanticOutputParser(pydantic_object=ResumeData).parse`
followed by `.model_dump()` — `none` when parsing/validation raises —
and `loads` models `json.loads` — `none` when it raises. Instantiations
used in concrete theorems below agree with the real Python behaviour at
every string on which they are evaluated. -/

/-- Python `raw.find(c)` for a single character: index of the first
occurrence, `none` standing for the -1 sentinel. -/
def findIdx : List Char → Char → Option Nat
  | [], _ => none
  | c :: cs, t => if c = t then some 0 else (findIdx cs t).map (· + 1)

/-- Python `raw.rfind(c)` for a single character: index of the last
occurrence, `none` standing for the -1 sentinel. -/
def rlastIdx (cs : List Char) (t : Char) : Option Nat :=
  match findIdx cs.reverse t with
  | some i => some (cs.length - 1 - i)
  | none => none

/-- Python `raw[s : e + 1]` on code points. -/
def sliceStr (raw : String) (s e : Nat) : String :=
  String.mk ((raw.data.drop s).take (e + 1 - s))

/-- The guard `start != -1 and end != -1 and end > start` of
`llm_service.py` line 72, packaging the indices it computes on lines 70-71:
`some (s, e)` exactly when the code takes the bracketed-span branch. -/
def spanOf (raw : String) : Option (Nat × Nat) :=
  match findIdx raw.data '{', rlastIdx raw.data '}' with
  | some s, some e => if s < e then some (s, e) else none
  | _, _ => none

/-- The parse/fallback cascade of `extract_structured_json`
(`llm_service.py` 59-78) applied to the raw model response: first Pydantic
validation; on failure, a single `try` block that parses the first-brace to
last-brace span when the guard holds and otherwise parses the whole raw
response, with any exception in that block yielding the sentinel object
`{"_raw": raw}` (both brace characters written escaped in source strings
elsewhere in this file). -/
def coerceResponse (pyd : String → Option (List (String × Json)))
    (loads : String → Option Json) (raw : String) : Json :=
  match pyd raw with
  | some validated => Json.obj validated
  | none =>
    (match spanOf raw with
     | some (s, e) => loads (sliceStr raw s e)
     | none => loads raw).getD (Json.obj [("_raw", Json.str raw)])

/-- A Python exception as the HTTP layer distinguishes them:
`ValueError` (with its message) versus everything else. -/
inductive PyErr where
  | valueError (msg : String) : PyErr
  | otherError : PyErr

/-- The external world of one upload request. Field order:
`provider` (the `LLM_PROVIDER` configuration value), `keyOk` (whether
`GROQ_API_KEY` is set), `pyd` and `loads` (the two parse routines above),
`llmRaw` (the text the model call returns), `fresh` (the `str(uuid4())`
generated for the record), `saveOk` (whether writing the uploaded bytes
succeeds), `extractResult` (what the PDF/DOCX text extractor produces, or
the library error message it raises), `metaRead` (the parsed content of the
metadata file as read by `save_metadata`, `none` for a decode error). -/
structure Env where
  provider : String
  keyOk : Bool
  pyd : String → Option (List (String × Json))
  loads : String → Option Json
  llmRaw : String
  fresh : String
  saveOk : Bool
  extractResult : Except String (List Char)
  metaRead : Option Store

/-- The accepted extensions, `("pdf", "docx", "doc")` in `main.py` line 34
(and the same set split across the two dispatch branches of `process_file`,
`parser.py` 136-141). -/
def validExts : List String := ["pdf", "docx", "doc"]

/-- Python `str.lower`, modelled per character (all strings the claims
involve are ASCII). -/
def lowerStr (s : String) : String := String.mk (s.data.map Char.toLower)

/-- Python `s.split(".")` on code points: splits at every dot and keeps
empty segments, so the result is always nonempty. -/
def splitOnDot : List Char → List (List Char)
  | [] => [[]]
  | c :: cs =>
    let rest := splitOnDot cs
    if c = '.' then [] :: rest
    else
      match rest with
      | r :: rs => (c :: r) :: rs
      | [] => [[c]]

/-- `main.py` line 32 and `parser.py` line 134:
`filename.lower().split(".")[-1]` (`str.lower` modelled per character;
the filenames in the claims are ASCII). -/
def extOf (filename : String) : String :=
  String.mk ((splitOnDot (lowerStr filename).data).getLastD [])

/-- `extract_structured_json` (`llm_service.py` 46-78) including the
provider guard: an unsupported `LLM_PROVIDER` raises
`ValueError("Unsupported LLM provider: ...")` before any model call
(line 53-54); a missing `GROQ_API_KEY` raises `RuntimeError` inside
`call_groq_langchain` (line 27-28), a non-ValueError exception. -/
def extract_structured_json (env : Env) : Except PyErr Json :=
  if lowerStr env.provider ≠ "groq" then
    Except.error (PyErr.valueError ("Unsupported LLM provider: " ++ lowerStr env.provider))
  else if env.keyOk = false then
    Except.error PyErr.otherError
  else
    Except.ok (coerceResponse env.pyd env.loads env.llmRaw)

/-- `process_file` (`parser.py` 122-168): extension dispatch (both the PDF
and the DOCX branch are the external extractor, modelled by
`env.extractResult`), the all-whitespace check (`if not text.strip()`),
the LLM call, key normalisation plus record construction (`buildRecord`),
and `save_metadata`. A non-dict value from `extract_structured_json`
makes the Python body raise a non-ValueError exception at the
normalisation loop, modelled by `otherError`. Returns the new store
content together with the record, which the code both persists and
returns. -/
def process_file (env : Env) (filename : String) :
    Except PyErr (Store × List (String × Json)) :=
  if extOf filename ∈ validExts then
    match env.extractResult with
    | Except.error msg => Except.error (PyErr.valueError msg)
    | Except.ok text =>
      if text.all Char.isWhitespace then
        Except.error (PyErr.valueError "The uploaded file contains no text.")
      else
        match extract_structured_json env with
        | Except.error e => Except.error e
        | Except.ok (Json.obj kvs) =>
          let record := buildRecord env.fresh kvs text
          Except.ok (save_metadata env.metaRead env.fresh (Json.obj record), record)
        | Except.ok _ => Except.error PyErr.otherError
  else
    Except.error (PyErr.valueError "Unsupported file type. Only PDF and DOCX are allowed.")

/-- The observable outcome of one `POST /api/upload` request: HTTP status,
response body (the document id on success), and whether the
file-storage step (`save_uploaded_file`) and the text-extraction step
were reached. -/
structure UploadOutcome where
  status : Nat
  body : Option String
  storageAttempted : Bool
  extractionAttempted : Bool

/-- `upload_resume` (`main.py` 28-53): the extension guard answers 400
before `save_uploaded_file` is called; a `ValueError` from saving is 500;
`process_file` is then called, its `ValueError` mapped to 400 and any
other exception to 500 — translated literally from the three `except`
clauses. -/
def upload_resume (env : Env) (filename : String) : UploadOutcome :=
  if extOf filename ∈ validExts then
    if env.saveOk then
      match process_file env filename with
      | Except.ok (_, record) =>
        ⟨200,
         (match lookupJ record "document_id" with
          | some (Json.str s) => some s
          | _ => none),
         true, true⟩
      | Except.error (PyErr.valueError _) => ⟨400, none, true, true⟩
      | Except.error PyErr.otherError => ⟨500, none, true, true⟩
    else ⟨500, none, true, false⟩
  else ⟨400, none, false, false⟩

/-- Python truthiness, used by `main.py` line 64 (`if not data`). -/
def isTruthy : Json → Bool
  | Json.null => false
  | Json.bool b => b
  | Json.num n => n != 0
  | Json.str s => !s.isEmpty
  | Json.arr elems => !elems.isEmpty
  | Json.obj fields => !fields.isEmpty

/-- The observable outcome of one `GET /api/resume/id` request. -/
inductive GetResult where
  | ok (body : Json) : GetResult
  | err (status : Nat) : GetResult

/-- `get_resume` (`main.py` 56-68): `load_metadata`, then
`if not data: 404` else the record as the 200 body. -/
def get_resume (readResult : Option Store) (document_id : String) : GetResult :=
  match load_metadata readResult document_id with
  | some data => if isTruthy data then GetResult.ok data else GetResult.err 404
  | none => GetResult.err 404

/-- Whether a JSON value is a list. -/
def isListJson : Json → Bool
  | Json.arr _ => true
  | _ => false

/-! ### Concrete instantiations of the external collaborators

Each function below agrees with the real Python routine it stands for at
every string on which the theorems evaluate it. -/

/-- A Pydantic parse that always fails (as it does on any response that is
not schema-shaped JSON). -/
def stubPyd : String → Option (List (String × Json)) := fun _ => none

/-- A `json.loads` that always fails; consistent with Python on every
string it is applied to below (none of them is valid JSON). -/
def stubLoads : String → Option Json := fun _ => none

/-- A well-behaved environment: provider `groq`, key set, storage and
extraction succeed with text `hello`, the model answers the single
character `x` (not JSON by any strategy), the metadata file holds an empty
object. Field order as documented on `Env`. -/
def envA : Env :=
  ⟨"groq", true, stubPyd, stubLoads, "x", "id-1", true, Except.ok "hello".data, some []⟩

/-- The record `process_file` builds in environment `envA`. -/
def recA : List (String × Json) := buildRecord "id-1" [("_raw", Json.str "x")] "hello".data

/-- The store content after `process_file` runs in environment `envA`. -/
def stA : Store := save_metadata (some []) "id-1" (Json.obj recA)

/-! ### The claims -/

/-- C6: the stored record's `raw_text` is `text[:5000]`: its length is
`min 5000 (length text)` — hence never exceeds 5000, and is exactly 5000
when the text is longer — and followed by the dropped suffix it
reconstitutes the extracted text, so it is the 5000-character prefix when
the text exceeds 5000 characters and the whole text otherwise. -/
theorem C6_rawText_truncation (fresh : String) (parsed : List (String × Json))
    (text : List Char) :
    lookupJ (buildRecord fresh parsed text) "raw_text"
        = some (Json.str (String.mk (text.take 5000))) ∧
    (text.take 5000).length = min 5000 text.length ∧
    text.take 5000 ++ text.drop 5000 = text := by
  refine ⟨lookupJ_buildRecord_rawText fresh parsed text, ?_, ?_⟩
  · exact List.length_take 5000 text
  · exact List.take_append_drop 5000 text

/-- C7: a filename whose extension (computed as the code does:
lower-cased, last dot-separated component) is outside pdf/docx/doc makes
`POST /api/upload` answer 400, with neither the file-storage step nor the
text-extraction step performed. -/
theorem C7_badExtension_rejected (env : Env) (filename : String)
    (h : extOf filename ∉ validExts) :
    upload_resume env filename = ⟨400, none, false, false⟩ := by
  simp [upload_resume, h]

theorem C7_badExtension_rejected_witness :
    upload_resume envA "resume.txt" = ⟨400, none, false, false⟩ :=
  C7_badExtension_rejected envA "resume.txt" (by decide)

/-- C8: the `document_id` of the record built by `process_file` is the
freshly generated token, for every dict the extraction step can
return — even one binding `document_id` itself — and is therefore
independent of the inference response content. -/
theorem C8_documentId_fresh (fresh : String) (parsed parsed₂ : List (String × Json))
    (text : List Char) :
    lookupJ (buildRecord fresh parsed text) "document_id" = some (Json.str fresh) ∧
    lookupJ (buildRecord fresh parsed text) "document_id"
        = lookupJ (buildRecord fresh parsed₂ text) "document_id" := by
  refine ⟨lookupJ_buildRecord_id fresh parsed text, ?_⟩
  rw [lookupJ_buildRecord_id, lookupJ_buildRecord_id]

/-- C9: whenever `process_file` succeeds, the key it passes to
`save_metadata` is exactly the `document_id` stored inside the record, the
new store is the result of that `save_metadata` call, and a subsequent
lookup by that key yields that very record. -/
theorem C9_storeKey_matches_record (env : Env) (filename : String)
    (store : Store) (record : List (String × Json))
    (h : process_file env filename = Except.ok (store, record)) :
    lookupJ record "document_id" = some (Json.str env.fresh) ∧
    store = save_metadata env.metaRead env.fresh (Json.obj record) ∧
    lookupJ store env.fresh = some (Json.obj record) ∧
    load_metadata (some store) env.fresh = some (Json.obj record) := by
  unfold process_file at h
  by_cases hext : extOf filename ∈ validExts
  · rw [if_pos hext] at h
    cases hres : env.extractResult with
    | error msg => rw [hres] at h; simp at h
    | ok text =>
      rw [hres] at h
      dsimp only at h
      by_cases hws : text.all Char.isWhitespace = true
      · rw [if_pos hws] at h; simp at h
      · rw [if_neg hws] at h
        cases hej : extract_structured_json env with
        | error e => rw [hej] at h; simp at h
        | ok j =>
          rw [hej] at h
          cases j with
          | obj kvs =>
            simp only [Except.ok.injEq, Prod.mk.injEq] at h
            obtain ⟨h1, h2⟩ := h
            subst h1
            subst h2
            refine ⟨lookupJ_buildRecord_id _ _ _, rfl, ?_, ?_⟩
            · exact lookupJ_setKey_self _ _ _
            · exact lookupJ_setKey_self _ _ _
          | null => simp at h
          | bool b => simp at h
          | num n => simp at h
          | str s => simp at h
          | arr elems => simp at h
  · rw [if_neg hext] at h
    simp at h

theorem C9_storeKey_matches_record_witness :
    lookupJ recA "document_id" = some (Json.str "id-1") ∧
    stA = save_metadata envA.metaRead envA.fresh (Json.obj recA) ∧
    lookupJ stA envA.fresh = some (Json.obj recA) ∧
    load_metadata (some stA) envA.fresh = some (Json.obj recA) :=
  C9_storeKey_matches_record envA "cv.pdf" stA recA rfl

/-- C10: `save_metadata`, when the backing file parses as a JSON object,
changes only the binding of the given id: every other key keeps its
previous value (hence no other key is added or removed), and the id maps
to the new record afterwards. -/
theorem C10_saveMetadata_frame (m : Store) (id : String) (record : Json)
    (k : String) (h : k ≠ id) :
    lookupJ (save_metadata (some m) id record) k = lookupJ m k ∧
    lookupJ (save_metadata (some m) id record) id = some record := by
  constructor
  · exact lookupJ_setKey_ne m id record k h
  · exact lookupJ_setKey_self m id record

theorem C10_saveMetadata_frame_witness :
    lookupJ (save_metadata (some [("a", Json.null)]) "b" (Json.bool true)) "a"
        = lookupJ [("a", Json.null)] "a" ∧
    lookupJ (save_metadata (some [("a", Json.null)]) "b" (Json.bool true)) "b"
        = some (Json.bool true) :=
  C10_saveMetadata_frame [("a", Json.null)] "b" (Json.bool true) "a" (by decide)

/-- C1 fails on the code: on a response that defeats all three parse
strategies, `extract_structured_json` does return the sentinel object, but
`process_file` rebuilds the persisted record from the expected schema keys
only, so the stored record has no `_raw` field (here: model response `x`,
which is not JSON by any strategy, and both parse stubs agree with the
real parsers on every evaluated string). -/
theorem C1_counterexample :
    coerceResponse stubPyd stubLoads "x" = Json.obj [("_raw", Json.str "x")] ∧
    process_file envA "cv.pdf" = Except.ok (stA, recA) ∧
    lookupJ recA "_raw" = none := ⟨rfl, rfl, rfl⟩

/-- C1 amended: when every strategy fails, the sentinel object survives
only as the return value of `extract_structured_json`; the record
`process_file` persists drops `_raw`, carries null `contact` and
`summary`, empty lists, and the truncated extracted text — so a
downstream reader of the store cannot recover the raw model response. -/
theorem C1_sentinel_dropped (env : Env) (filename : String) (text : List Char)
    (hext : extOf filename ∈ validExts)
    (htext : env.extractResult = Except.ok text)
    (hws : text.all Char.isWhitespace = false)
    (hprov : lowerStr env.provider = "groq")
    (hkey : env.keyOk = true)
    (hfail : coerceResponse env.pyd env.loads env.llmRaw
        = Json.obj [("_raw", Json.str env.llmRaw)]) :
    process_file env filename =
      Except.ok
        (save_metadata env.metaRead env.fresh
           (Json.obj (buildRecord env.fresh [("_raw", Json.str env.llmRaw)] text)),
         buildRecord env.fresh [("_raw", Json.str env.llmRaw)] text) ∧
    lookupJ (buildRecord env.fresh [("_raw", Json.str env.llmRaw)] text) "_raw" = none ∧
    lookupJ (buildRecord env.fresh [("_raw", Json.str env.llmRaw)] text) "contact"
        = some Json.null ∧
    lookupJ (buildRecord env.fresh [("_raw", Json.str env.llmRaw)] text) "experience"
        = some (Json.arr []) ∧
    lookupJ (buildRecord env.fresh [("_raw", Json.str env.llmRaw)] text) "raw_text"
        = some (Json.str (String.mk (text.take 5000))) := by
  refine ⟨?_, ?_, ?_, ?_, ?_⟩
  · simp [process_file, extract_structured_json, hext, htext, hws, hprov, hkey, hfail]
  · exact lookupJ_buildRecord_sentinelAbsent _ _ _
  · rw [lookupJ_buildRecord_contact]
    simp [lookupJ]
  · rw [lookupJ_buildRecord_experience]
    simp [lookupJ]
  · exact lookupJ_buildRecord_rawText _ _ _

theorem C1_sentinel_dropped_witness :
    process_file envA "cv.pdf" =
      Except.ok (save_metadata envA.metaRead envA.fresh (Json.obj recA), recA) ∧
    lookupJ recA "_raw" = none ∧
    lookupJ recA "contact" = some Json.null ∧
    lookupJ recA "experience" = some (Json.arr []) ∧
    lookupJ recA "raw_text" = some (Json.str (String.mk ("hello".data.take 5000))) :=
  C1_sentinel_dropped envA "cv.pdf" "hello".data (by decide) rfl (by decide) rfl rfl rfl

/-- A `json.loads` agreeing with Python on every string it is evaluated on
in the C2 theorems: the full response (a quoted JSON string) parses, the
bracketed span does not. -/
def loadsB : String → Option Json :=
  fun s => if s = "\"a{b}c\"" then some (Json.str "a{b}c") else none

/-- C2 fails on the code: on the response (quoted string) a{b}c the
bracketed span is present at indices 2-4, that span fails to parse, and
the whole-response parse would succeed — yet `extract_structured_json`
returns the sentinel object, never attempting strategy (3): both
`json.loads` calls sit in one `try` block, so the failing span parse jumps
straight to the `except` clause. -/
theorem C2_counterexample :
    spanOf "\"a{b}c\"" = some (2, 4) ∧
    sliceStr "\"a{b}c\"" 2 4 = "{b}" ∧
    loadsB "{b}" = none ∧
    loadsB "\"a{b}c\"" = some (Json.str "a{b}c") ∧
    coerceResponse stubPyd loadsB "\"a{b}c\""
        = Json.obj [("_raw", Json.str "\"a{b}c\"")] ∧
    Json.obj [("_raw", Json.str "\"a{b}c\"")] ≠ Json.str "a{b}c" := by
  refine ⟨rfl, rfl, rfl, rfl, rfl, ?_⟩
  intro hcontra
  exact Json.noConfusion hcontra

/-- C2 amended: strategies (1) and (2) are applied in order with first
success winning, but the whole-response parse is attempted only when no
bracketed span exists; when the span exists and fails to parse, the
sentinel is returned at once, and the result never depends on the
behaviour of `json.loads` on anything but the span. -/
theorem C2_strategy_order (pyd : String → Option (List (String × Json)))
    (loads loads₂ : String → Option Json) (raw : String) :
    (∀ v, pyd raw = some v → coerceResponse pyd loads raw = Json.obj v) ∧
    (∀ s e, pyd raw = none → spanOf raw = some (s, e) →
        loads (sliceStr raw s e) = none →
        coerceResponse pyd loads raw = Json.obj [("_raw", Json.str raw)]) ∧
    (∀ s e, spanOf raw = some (s, e) →
        loads (sliceStr raw s e) = loads₂ (sliceStr raw s e) →
        coerceResponse pyd loads raw = coerceResponse pyd loads₂ raw) ∧
    (pyd raw = none → spanOf raw = none →
        coerceResponse pyd loads raw
          = (loads raw).getD (Json.obj [("_raw", Json.str raw)])) := by
  refine ⟨?_, ?_, ?_, ?_⟩
  · intro v hv
    simp [coerceResponse, hv]
  · intro s e hp hs hl
    simp [coerceResponse, hp, hs, hl]
  · intro s e hs hl
    cases hp : pyd raw with
    | some v => simp [coerceResponse, hp]
    | none => simp [coerceResponse, hp, hs, hl]
  · intro hp hs
    simp [coerceResponse, hp, hs]

theorem C2_strategy_order_witness :
    coerceResponse stubPyd loadsB "\"a{b}c\""
        = Json.obj [("_raw", Json.str "\"a{b}c\"")] :=
  (C2_strategy_order stubPyd loadsB loadsB "\"a{b}c\"").2.1 2 4 rfl rfl rfl

/-- An environment whose only departure from `envA` is the unsupported
provider value. -/
def envB : Env :=
  ⟨"openai", true, stubPyd, stubLoads, "x", "id-2", true, Except.ok "hello".data, some []⟩

/-- C3 fails on the code: with provider `openai` configured, an otherwise
healthy upload gets HTTP 400, not the 500 the claim requires — the
provider guard raises `ValueError`, which `upload_resume` maps to the
client-input 400 branch. -/
theorem C3_counterexample :
    upload_resume envB "cv.pdf" = ⟨400, none, true, true⟩ ∧ (400 : Nat) ≠ 500 :=
  ⟨rfl, by decide⟩

/-- C3 amended: an unsupported provider value makes the upload fail with
HTTP 400 (the `ValueError` / client-input category), not 500. -/
theorem C3_badProvider_maps_to_400 (env : Env) (filename : String) (text : List Char)
    (hprov : lowerStr env.provider ≠ "groq")
    (hext : extOf filename ∈ validExts)
    (hsave : env.saveOk = true)
    (htext : env.extractResult = Except.ok text)
    (hws : text.all Char.isWhitespace = false) :
    upload_resume env filename = ⟨400, none, true, true⟩ := by
  simp [upload_resume, process_file, extract_structured_json, hext, hsave, htext, hws, hprov]

theorem C3_badProvider_maps_to_400_witness :
    upload_resume envB "cv.pdf" = ⟨400, none, true, true⟩ :=
  C3_badProvider_maps_to_400 envB "cv.pdf" "hello".data (by decide) (by decide) rfl rfl
    (by decide)

/-- A `json.loads` agreeing with Python on every string the C4
counterexample evaluates it on: the response is the JSON object binding
`experience` to null (brace characters written as escapes). -/
def loadsC : String → Option Json :=
  fun s =>
    if s = "\x7b\"experience\": null\x7d" then some (Json.obj [("experience", Json.null)])
    else none

/-- An environment whose model response is the JSON object binding
`experience` to null. -/
def envC : Env :=
  ⟨"groq", true, stubPyd, loadsC, "\x7b\"experience\": null\x7d", "id-3", true,
   Except.ok "hello".data, some []⟩

/-- C4 fails on the code: when the extraction output binds `experience`
to null (key present), the normalisation loop skips it — it only fills
absent keys — and the stored record carries `experience = null`, which is
not a list. -/
theorem C4_counterexample :
    (process_file envC "cv.pdf").toOption.map (fun p => lookupJ p.2 "experience")
        = some (some Json.null) ∧
    isListJson Json.null = false :=
  ⟨rfl, rfl⟩

/-- C4 amended: the four list fields are always present in the stored
record, but each equals the extraction output's value verbatim whenever
the key was present — even when that value is null or not a list — and
defaults to the empty list only when the key was absent. -/
theorem C4_listFields_present (fresh : String) (parsed : List (String × Json))
    (text : List Char) :
    lookupJ (buildRecord fresh parsed text) "experience"
        = some ((lookupJ parsed "experience").getD (Json.arr [])) ∧
    lookupJ (buildRecord fresh parsed text) "education"
        = some ((lookupJ parsed "education").getD (Json.arr [])) ∧
    lookupJ (buildRecord fresh parsed text) "skills"
        = some ((lookupJ parsed "skills").getD (Json.arr [])) ∧
    lookupJ (buildRecord fresh parsed text) "certifications"
        = some ((lookupJ parsed "certifications").getD (Json.arr [])) :=
  ⟨lookupJ_buildRecord_experience fresh parsed text,
   lookupJ_buildRecord_education fresh parsed text,
   lookupJ_buildRecord_skills fresh parsed text,
   lookupJ_buildRecord_certifications fresh parsed text⟩

/-- C5 fails on the code: a metadata read error (modelled by
`readResult = none`, the branch the `except` clause of `load_metadata`
turns into `None`) is answered with HTTP 404, not the 500 the claim
requires. -/
theorem C5_counterexample :
    get_resume none "doc-1" = GetResult.err 404 ∧
    GetResult.err 404 ≠ GetResult.err 500 := by
  refine ⟨rfl, ?_⟩
  intro hcontra
  exact absurd (GetResult.err.inj hcontra) (by decide)

/-- C5 amended: a storage read error during fetch is swallowed by
`load_metadata` (which returns `None`) and surfaced as 404 for every
requested id, indistinguishable from an absent key. -/
theorem C5_readError_maps_to_404 (document_id : String) :
    get_resume none document_id = GetResult.err 404 := rfl

end ResumeApp
